import Mathlib

/-!
Verification development for the `fetch-market` scripts
(`fetch_a_share_info.py` and `fetch_a_shares.py`).

The Python sources are shallowly embedded: pure functions become Lean
functions over `List Char` (Python `str`), `ℚ` (Python `float`, idealized
as exact rationals), `ℤ`/`ℕ` (Python `int`); dictionaries become
association lists; functions that may raise become `Option`/`Except`
valued; the wall clock and `time.sleep` are made explicit by threading a
clock value through the rate limiter.
-/

/-- Python's `round` rounds half to even (banker's rounding).  We model it
on exact rationals: `roundHalfEven x` is the integer nearest to `x`, ties
going to the even integer. -/
def roundHalfEven (x : ℚ) : ℤ :=
  let f : ℤ := ⌊x⌋
  let r : ℚ := x - f
  if r < 1/2 then f
  else if 1/2 < r then f + 1
  else if f % 2 = 0 then f else f + 1

/-- Python's `round(x, ndigits)` on our rational model. -/
def pyRound (ndigits : ℕ) (x : ℚ) : ℚ :=
  (roundHalfEven (x * 10 ^ ndigits) : ℚ) / 10 ^ ndigits

/-- Python dictionary access `d[k]` / `d.get(k)` on an association list:
first entry with the given key wins (keys of a Python dict are unique). -/
def assocLookup {κ α : Type} [DecidableEq κ] : List (κ × α) → κ → Option α
  | [], _ => none
  | p :: t, k => if k = p.1 then some p.2 else assocLookup t k

theorem assocLookup_cons_self {κ α : Type} [DecidableEq κ] (k : κ) (v : α)
    (t : List (κ × α)) : assocLookup ((k, v) :: t) k = some v := by
  simp [assocLookup]

theorem assocLookup_cons_ne {κ α : Type} [DecidableEq κ] {k k₁ : κ} (v : α)
    (t : List (κ × α)) (h : k ≠ k₁) :
    assocLookup ((k₁, v) :: t) k = assocLookup t k := by
  simp [assocLookup, h]

/-! ### Rate limiter (`RateLimiter` in both scripts)

```python
def __init__(self, calls_per_minute: int = 3) -> None:
    self.interval_seconds = 60.0 / max(1, calls_per_minute)
    self._lock = threading.Lock()
    self._last_call_ts = 0.0

def wait(self) -> None:
    with self._lock:
        now = time.monotonic()
        wait_seconds = self.interval_seconds - (now - self._last_call_ts)
        if wait_seconds > 0:
            time.sleep(wait_seconds)
        self._last_call_ts = time.monotonic()
```

The lock serializes callers, so the behaviour visible to any collection of
callers is a sequence of `wait` executions.  We embed one execution of the
critical section as a function of the monotonic-clock reading `now` at
entry; `time.sleep(d)` advances the clock by `d` (the idealized clock; a
real sleep only takes longer, which can only increase the gaps proved
below), and the returned time is the `time.monotonic()` reading stored
into `_last_call_ts`. -/
structure RateLimiter where
  interval_seconds : ℚ
  last_call_ts : ℚ

/-- `RateLimiter(calls_per_minute)`: `interval_seconds = 60.0 / max(1, calls_per_minute)`,
`_last_call_ts = 0.0`. -/
def RateLimiter.init (calls_per_minute : ℤ) : RateLimiter :=
  { interval_seconds := 60 / ((max 1 calls_per_minute : ℤ) : ℚ)
    last_call_ts := 0 }

/-- One execution of `wait()`'s critical section, entered at clock reading
`now`.  Returns the dispatch time (the moment `wait` returns and the call
is issued) and the updated limiter state. -/
def RateLimiter.wait (rl : RateLimiter) (now : ℚ) : ℚ × RateLimiter :=
  let wait_seconds := rl.interval_seconds - (now - rl.last_call_ts)
  let t := if 0 < wait_seconds then now + wait_seconds else now
  (t, { rl with last_call_ts := t })

/-- A back-to-back sequence of `wait()` calls through one limiter: the
first caller enters at clock `start`; each subsequent caller enters `d`
after the previous dispatch, where `d` ranges over `delays` (any
scheduling delay).  Returns the list of dispatch times. -/
def RateLimiter.runCalls : RateLimiter → ℚ → List ℚ → List ℚ
  | rl, start, [] => [(rl.wait start).1]
  | rl, start, d :: ds =>
    let p := rl.wait start
    p.1 :: p.2.runCalls (p.1 + d) ds

theorem RateLimiter.wait_fst (rl : RateLimiter) (now : ℚ) :
    (rl.wait now).1 = max now (rl.last_call_ts + rl.interval_seconds) := by
  show (if 0 < rl.interval_seconds - (now - rl.last_call_ts)
      then now + (rl.interval_seconds - (now - rl.last_call_ts)) else now)
    = max now (rl.last_call_ts + rl.interval_seconds)
  rcases le_or_lt (rl.interval_seconds - (now - rl.last_call_ts)) 0 with h | h
  · rw [if_neg (not_lt.mpr h), max_eq_left (by linarith)]
  · rw [if_pos h, max_eq_right (by linarith)]
    ring

theorem RateLimiter.wait_snd_interval (rl : RateLimiter) (now : ℚ) :
    (rl.wait now).2.interval_seconds = rl.interval_seconds := rfl

theorem RateLimiter.wait_snd_last (rl : RateLimiter) (now : ℚ) :
    (rl.wait now).2.last_call_ts = (rl.wait now).1 := rfl

theorem RateLimiter.runCalls_ne_nil (rl : RateLimiter) (start : ℚ)
    (delays : List ℚ) : rl.runCalls start delays ≠ [] := by
  cases delays <;> simp [RateLimiter.runCalls]

theorem RateLimiter.runCalls_head (rl : RateLimiter) (start : ℚ)
    (delays : List ℚ) :
    (rl.runCalls start delays).head? = some (rl.wait start).1 := by
  cases delays <;> rfl

/-- Consecutive dispatch times are at least one interval apart. -/
theorem RateLimiter.runCalls_chain (rl : RateLimiter) (start : ℚ)
    (delays : List ℚ) :
    List.Chain' (fun a b => a + rl.interval_seconds ≤ b)
      (rl.runCalls start delays) := by
  induction delays generalizing rl start with
  | nil => simp [RateLimiter.runCalls]
  | cons d ds ih =>
    simp only [RateLimiter.runCalls]
    have hch := ih (rl.wait start).2 ((rl.wait start).1 + d)
    have hhead := RateLimiter.runCalls_head (rl.wait start).2 ((rl.wait start).1 + d) ds
    rcases hcons : (rl.wait start).2.runCalls ((rl.wait start).1 + d) ds with _ | ⟨t, ts⟩
    · exact absurd hcons (RateLimiter.runCalls_ne_nil _ _ _)
    · rw [hcons] at hch hhead
      rw [RateLimiter.wait_snd_interval] at hch
      refine List.Chain'.cons ?_ hch
      have ht : t = ((rl.wait start).2.wait ((rl.wait start).1 + d)).1 := by
        simpa using hhead
      have h2 : ((rl.wait start).2.wait ((rl.wait start).1 + d)).1
          = max ((rl.wait start).1 + d)
              ((rl.wait start).2.last_call_ts + (rl.wait start).2.interval_seconds) :=
        RateLimiter.wait_fst _ _
      rw [RateLimiter.wait_snd_last, RateLimiter.wait_snd_interval] at h2
      rw [ht, h2]
      exact le_max_right _ _

/-- The last dispatch is at least `delays.length` intervals after the first. -/
theorem RateLimiter.runCalls_total (rl : RateLimiter) (start : ℚ)
    (delays : List ℚ) (t1 tN : ℚ)
    (h1 : (rl.runCalls start delays).head? = some t1)
    (hN : (rl.runCalls start delays).getLast? = some tN) :
    t1 + (delays.length : ℚ) * rl.interval_seconds ≤ tN := by
  induction delays generalizing rl start t1 tN with
  | nil =>
    simp only [RateLimiter.runCalls] at h1 hN
    simp only [List.head?_cons, Option.some_inj] at h1
    simp only [List.getLast?, List.getLast, Option.some_inj] at hN
    simp only [List.length_nil, Nat.cast_zero, zero_mul, add_zero]
    rw [← h1, ← hN]
  | cons d ds ih =>
    simp only [RateLimiter.runCalls] at h1 hN
    simp only [List.head?_cons, Option.some_inj] at h1
    rcases hcons : (rl.wait start).2.runCalls ((rl.wait start).1 + d) ds with _ | ⟨t, ts⟩
    · exact absurd hcons (RateLimiter.runCalls_ne_nil _ _ _)
    · rw [hcons, List.getLast?_cons_cons] at hN
      have hh := RateLimiter.runCalls_head (rl.wait start).2 ((rl.wait start).1 + d) ds
      rw [hcons] at hh
      have hrec := ih (rl.wait start).2 ((rl.wait start).1 + d) t tN
        (by rw [hcons]; simp)
        (by rw [hcons]; exact hN)
      have ht : t = ((rl.wait start).2.wait ((rl.wait start).1 + d)).1 := by
        simpa using hh
      have h2 : ((rl.wait start).2.wait ((rl.wait start).1 + d)).1
          = max ((rl.wait start).1 + d)
              ((rl.wait start).2.last_call_ts + (rl.wait start).2.interval_seconds) :=
        RateLimiter.wait_fst _ _
      rw [RateLimiter.wait_snd_last, RateLimiter.wait_snd_interval] at h2
      have hstep : t1 + rl.interval_seconds ≤ t := by
        rw [← h1, ht, h2]
        exact le_max_right _ _
      rw [RateLimiter.wait_snd_interval] at hrec
      have hlen : (((d :: ds).length : ℕ) : ℚ) = (ds.length : ℚ) + 1 := by
        push_cast [List.length_cons]
        ring
      calc t1 + ((d :: ds).length : ℚ) * rl.interval_seconds
          = (t1 + rl.interval_seconds) + (ds.length : ℚ) * rl.interval_seconds := by
            rw [hlen]; ring
        _ ≤ t + (ds.length : ℚ) * rl.interval_seconds := by linarith
        _ ≤ tN := hrec

/-- Claim C1: a `RateLimiter` built with calls-per-minute `c` has
`interval_seconds = 60 / max(1, c)`; for every back-to-back sequence of
`wait()` calls through one instance (serialized by the limiter's lock),
consecutive dispatch times are at least one interval apart, and the last
of `N = delays.length + 1` dispatches is at least `(N - 1) * interval`
after the first, i.e. completing all `N` calls takes at least
`(N - 1) * interval` of wall-clock time. -/
theorem rate_limiter_interval_and_spacing (c : ℤ) (start : ℚ) (delays : List ℚ) :
    (RateLimiter.init c).interval_seconds = 60 / ((max 1 c : ℤ) : ℚ)
    ∧ List.Chain' (fun a b => a + (RateLimiter.init c).interval_seconds ≤ b)
        ((RateLimiter.init c).runCalls start delays)
    ∧ ∀ t1 tN : ℚ,
        ((RateLimiter.init c).runCalls start delays).head? = some t1 →
        ((RateLimiter.init c).runCalls start delays).getLast? = some tN →
        t1 + (delays.length : ℚ) * (RateLimiter.init c).interval_seconds ≤ tN :=
  ⟨rfl, RateLimiter.runCalls_chain _ _ _,
    fun _ _ => RateLimiter.runCalls_total _ _ _ _ _⟩

/-- Concrete instance of `rate_limiter_interval_and_spacing`: three
back-to-back calls at 3 calls/minute dispatch at times 20, 40, 60, and
60 ≥ 20 + 2 · 20. -/
theorem rate_limiter_interval_and_spacing_witness :
    (20 : ℚ) + ((([(0 : ℚ), 0]).length : ℚ)) * (RateLimiter.init 3).interval_seconds ≤ 60 :=
  (rate_limiter_interval_and_spacing 3 0 [0, 0]).2.2 20 60
    (by norm_num [RateLimiter.runCalls, RateLimiter.wait, RateLimiter.init])
    (by norm_num [RateLimiter.runCalls, RateLimiter.wait, RateLimiter.init])

/-! ### Identifier normalization (`normalize_a_share_symbol`, identical in
both scripts)

```python
s = symbol.strip().upper()
if not s:
    return s
if "." in s:
    if s.endswith(".SH"):
        return s[:-3] + ".SHH"
    if s.endswith(".SZ"):
        return s[:-3] + ".SHZ"
    return s
if s[0] == "6":
    return s + ".SHH"
if s[0] in ("0", "3"):
    return s + ".SHZ"
return s
```
-/

/-- Python `str.strip()`: drop leading and trailing whitespace. -/
def pyStrip (s : List Char) : List Char :=
  ((s.dropWhile Char.isWhitespace).reverse.dropWhile Char.isWhitespace).reverse

/-- Python `str.upper()` (ASCII-adequate for ticker symbols). -/
def pyUpper (s : List Char) : List Char := s.map Char.toUpper

/-- Python `s.endswith(suffix)`. -/
def endswith (s suffix : List Char) : Bool := decide (suffix <:+ s)

/-- `normalize_a_share_symbol` from both scripts. -/
def normalize_a_share_symbol (symbol : List Char) : List Char :=
  let s := pyUpper (pyStrip symbol)
  if s = [] then s
  else if '.' ∈ s then
    (if endswith s ".SH".toList then s.take (s.length - 3) ++ ".SHH".toList
     else if endswith s ".SZ".toList then s.take (s.length - 3) ++ ".SHZ".toList
     else s)
  else if s.headI = '6' then s ++ ".SHH".toList
  else if s.headI = '0' ∨ s.headI = '3' then s ++ ".SHZ".toList
  else s

theorem endswith_SZ_not_SH (t : List Char)
    (h : endswith t ".SZ".toList = true) : endswith t ".SH".toList = false := by
  rcases of_decide_eq_true h with ⟨pre, rfl⟩
  rw [endswith, decide_eq_false_iff_not]
  rintro ⟨pre2, heq⟩
  have hz : (pre ++ ".SZ".toList).getLast? = some 'Z' := by
    rw [List.getLast?_append]; rfl
  have hh : (pre2 ++ ".SH".toList).getLast? = some 'H' := by
    rw [List.getLast?_append]; rfl
  rw [heq] at hh
  rw [hz] at hh
  exact absurd (Option.some_inj.mp hh) (by decide)

theorem endswith_mem_dot (t : List Char) (c : Char) (r : List Char)
    (h : endswith t ('.' :: c :: r) = true) : '.' ∈ t := by
  rcases of_decide_eq_true h with ⟨pre, rfl⟩
  exact List.mem_append_right _ (List.mem_cons_self _ _)

theorem endswith_ne_nil (t : List Char) (c : Char) (r : List Char)
    (h : endswith t (c :: r) = true) : t ≠ [] := by
  rcases of_decide_eq_true h with ⟨pre, rfl⟩
  simp

/-- Claim C7: behaviour of `normalize_a_share_symbol` on every class of
input, stated in terms of the trimmed upper-cased form `t` of the raw
input: a dot-free `t` starting with `'6'` gets `".SHH"` appended, one
starting with `'0'` or `'3'` gets `".SHZ"` appended; a `t` ending in
`".SH"` (resp. `".SZ"`) has that suffix rewritten to `".SHH"` (resp.
`".SHZ"`); any other input is returned unchanged (up to trimming and
upper-casing); and concretely `"600519" ↦ "600519.SHH"`,
`"000001.SZ" ↦ "000001.SHZ"`. -/
theorem normalize_symbol_cases (s t : List Char) (ht : pyUpper (pyStrip s) = t) :
    (t ≠ [] → '.' ∉ t → t.headI = '6' →
      normalize_a_share_symbol s = t ++ ".SHH".toList)
    ∧ (t ≠ [] → '.' ∉ t → (t.headI = '0' ∨ t.headI = '3') →
      normalize_a_share_symbol s = t ++ ".SHZ".toList)
    ∧ (endswith t ".SH".toList = true →
      normalize_a_share_symbol s = t.take (t.length - 3) ++ ".SHH".toList)
    ∧ (endswith t ".SZ".toList = true →
      normalize_a_share_symbol s = t.take (t.length - 3) ++ ".SHZ".toList)
    ∧ ('.' ∈ t → endswith t ".SH".toList = false → endswith t ".SZ".toList = false →
      normalize_a_share_symbol s = t)
    ∧ (t ≠ [] → '.' ∉ t → t.headI ≠ '6' → t.headI ≠ '0' → t.headI ≠ '3' →
      normalize_a_share_symbol s = t)
    ∧ normalize_a_share_symbol "600519".toList = "600519.SHH".toList
    ∧ normalize_a_share_symbol "000001.SZ".toList = "000001.SHZ".toList := by
  refine ⟨?_, ?_, ?_, ?_, ?_, ?_, by decide, by decide⟩
  · intro h0 h1 h2
    simp [normalize_a_share_symbol, ht, h0, h1, h2]
  · intro h0 h1 h2
    rcases h2 with h2 | h2 <;>
      simp [normalize_a_share_symbol, ht, h0, h1, h2]
  · intro h
    have hne := endswith_ne_nil t _ _ h
    have hdot := endswith_mem_dot t _ _ h
    have h' : endswith t ['.', 'S', 'H'] = true := h
    simp [normalize_a_share_symbol, ht, hne, hdot, h']
  · intro h
    have hne := endswith_ne_nil t _ _ h
    have hdot := endswith_mem_dot t _ _ h
    have h' : endswith t ['.', 'S', 'Z'] = true := h
    have hsh : endswith t ['.', 'S', 'H'] = false := endswith_SZ_not_SH t h
    simp [normalize_a_share_symbol, ht, hne, hdot, h', hsh]
  · intro hdot h1 h2
    have hne : t ≠ [] := by rintro rfl; simp at hdot
    have h1' : endswith t ['.', 'S', 'H'] = false := h1
    have h2' : endswith t ['.', 'S', 'Z'] = false := h2
    simp [normalize_a_share_symbol, ht, hne, hdot, h1', h2']
  · intro h0 h1 h2 h3 h4
    simp [normalize_a_share_symbol, ht, h0, h1, h2, h3, h4]

/-- Concrete instance of `normalize_symbol_cases`: a padded lower-case
legacy-suffix input `" 600519.sh "` normalizes to `"600519.SHH"`. -/
theorem normalize_symbol_cases_witness :
    normalize_a_share_symbol " 600519.sh ".toList = "600519.SH".toList.take
      ("600519.SH".toList.length - 3) ++ ".SHH".toList :=
  (normalize_symbol_cases " 600519.sh ".toList "600519.SH".toList
    (by decide)).2.2.1 (by decide)

/-! ### Retrying fetchers (`fetch_alpha_vantage_data` in
`fetch_a_share_info.py`, `fetch_alpha_vantage_daily` in
`fetch_a_shares.py`)

Both loop `for attempt in range(1, max_retries + 1)`, call
`rate_limiter.wait()`, issue one GET and classify the result.  The
transport is embedded as a function from the attempt number to the reply
(HTTP status plus decoded body, or a `requests.RequestException`).  Only
the key-membership facts the loops test are retained of a decoded body.
`time.sleep` durations are recorded in a trace, one entry per attempt
that backs off. -/

/-- Key-membership facts of a decoded JSON body: presence of `"Note"` /
`"Information"` (soft throttle), value under `"Error Message"` when
present, and presence of `"Time Series (Daily)"` (the daily endpoint's
success marker). -/
structure RawBody where
  note : Bool
  information : Bool
  error_message : Option (List Char)
  time_series_daily : Bool
deriving DecidableEq

/-- Result of one `session.get(...)`: an HTTP reply with decoded body, or
a `requests.RequestException` (connection error / timeout). -/
inductive TransportReply where
  | reply (status : ℕ) (body : RawBody)
  | netError
deriving DecidableEq

/-- How a fetcher call ends: `return data`, the un-retried
`raise ValueError(...)` on an explicit error payload (`UpstreamError`), or
the final `raise RuntimeError(...)` after the loop (`ExhaustedRetries`). -/
inductive FetchOutcome where
  | success (body : RawBody)
  | upstreamError (msg : List Char)
  | exhausted
deriving DecidableEq

/-- Observable behaviour of one fetcher call: number of attempts made,
backoff sleeps issued (seconds, in order), and the outcome. -/
structure FetchTrace where
  attempts : ℕ
  sleeps : List ℕ
  outcome : FetchOutcome
deriving DecidableEq

/-- The retry loop of `fetch_alpha_vantage_data` (`fetch_a_share_info.py`
lines 91-118), at attempt number `attempt` with the given number of
remaining attempts.  Non-200: sleep `min(30, attempt*2)`; throttle marker:
sleep `min(60, 15*attempt)`; `"Error Message"`: raise immediately;
otherwise the body is returned as-is; `RequestException`: sleep
`min(30, attempt*2)`. -/
def infoFetchLoop (transport : ℕ → TransportReply) (attempt : ℕ) : ℕ → FetchTrace
  | 0 => ⟨0, [], .exhausted⟩
  | remaining + 1 =>
    match transport attempt with
    | .netError =>
      let t := infoFetchLoop transport (attempt + 1) remaining
      ⟨t.attempts + 1, min 30 (attempt * 2) :: t.sleeps, t.outcome⟩
    | .reply status body =>
      if status ≠ 200 then
        let t := infoFetchLoop transport (attempt + 1) remaining
        ⟨t.attempts + 1, min 30 (attempt * 2) :: t.sleeps, t.outcome⟩
      else if body.note || body.information then
        let t := infoFetchLoop transport (attempt + 1) remaining
        ⟨t.attempts + 1, min 60 (15 * attempt) :: t.sleeps, t.outcome⟩
      else
        match body.error_message with
        | some m => ⟨1, [], .upstreamError m⟩
        | none => ⟨1, [], .success body⟩

/-- `fetch_alpha_vantage_data(...)` (`fetch_a_share_info.py`); the loop
runs attempts `1 .. max_retries` (default 3). -/
def fetch_alpha_vantage_data (transport : ℕ → TransportReply)
    (max_retries : ℕ := 3) : FetchTrace :=
  infoFetchLoop transport 1 max_retries

/-- The retry loop of `fetch_alpha_vantage_daily` (`fetch_a_shares.py`
lines 91-117).  Non-200: sleep `min(60, attempt*2)`; throttle marker:
sleep `min(75, 10*attempt)`; `"Error Message"`: raise immediately;
`"Time Series (Daily)"` present: return; otherwise sleep
`min(60, attempt*2)` and continue; `RequestException`: sleep
`min(60, attempt*2)`. -/
def sharesFetchLoop (transport : ℕ → TransportReply) (attempt : ℕ) : ℕ → FetchTrace
  | 0 => ⟨0, [], .exhausted⟩
  | remaining + 1 =>
    match transport attempt with
    | .netError =>
      let t := sharesFetchLoop transport (attempt + 1) remaining
      ⟨t.attempts + 1, min 60 (attempt * 2) :: t.sleeps, t.outcome⟩
    | .reply status body =>
      if status ≠ 200 then
        let t := sharesFetchLoop transport (attempt + 1) remaining
        ⟨t.attempts + 1, min 60 (attempt * 2) :: t.sleeps, t.outcome⟩
      else if body.note || body.information then
        let t := sharesFetchLoop transport (attempt + 1) remaining
        ⟨t.attempts + 1, min 75 (10 * attempt) :: t.sleeps, t.outcome⟩
      else
        match body.error_message with
        | some m => ⟨1, [], .upstreamError m⟩
        | none =>
          if body.time_series_daily then ⟨1, [], .success body⟩
          else
            let t := sharesFetchLoop transport (attempt + 1) remaining
            ⟨t.attempts + 1, min 60 (attempt * 2) :: t.sleeps, t.outcome⟩

/-- `fetch_alpha_vantage_daily(...)` (`fetch_a_shares.py`); the loop runs
attempts `1 .. max_retries` (default 5). -/
def fetch_alpha_vantage_daily (transport : ℕ → TransportReply)
    (max_retries : ℕ := 5) : FetchTrace :=
  sharesFetchLoop transport 1 max_retries

theorem infoFetchLoop_exhausted_of_500 (transport : ℕ → TransportReply)
    (h : ∀ n, ∃ b, transport n = .reply 500 b) :
    ∀ (r a : ℕ), (infoFetchLoop transport a r).attempts = r
      ∧ (infoFetchLoop transport a r).outcome = .exhausted := by
  intro r
  induction r with
  | zero => intro a; exact ⟨rfl, rfl⟩
  | succ r ih =>
    intro a
    obtain ⟨b, hb⟩ := h a
    have hr := ih (a + 1)
    simp only [infoFetchLoop, hb]
    simp [hr.1, hr.2]

theorem sharesFetchLoop_exhausted_of_500 (transport : ℕ → TransportReply)
    (h : ∀ n, ∃ b, transport n = .reply 500 b) :
    ∀ (r a : ℕ), (sharesFetchLoop transport a r).attempts = r
      ∧ (sharesFetchLoop transport a r).outcome = .exhausted := by
  intro r
  induction r with
  | zero => intro a; exact ⟨rfl, rfl⟩
  | succ r ih =>
    intro a
    obtain ⟨b, hb⟩ := h a
    have hr := ih (a + 1)
    simp only [sharesFetchLoop, hb]
    simp [hr.1, hr.2]

/-- Claim C4: if the transport answers HTTP 500 on every attempt, both
retrying fetchers make exactly `max_retries` attempts and then fail with
`ExhaustedRetries`; if the first attempt's decoded body carries an
`"Error Message"` key (and no throttle marker), both fetchers make
exactly 1 attempt and fail immediately with `UpstreamError`, with no
retry. -/
theorem retry_policy_exhausted_and_upstream :
    (∀ (transport : ℕ → TransportReply) (maxRetries : ℕ),
      (∀ n, ∃ b, transport n = .reply 500 b) →
      (fetch_alpha_vantage_data transport maxRetries).attempts = maxRetries
      ∧ (fetch_alpha_vantage_data transport maxRetries).outcome = .exhausted
      ∧ (fetch_alpha_vantage_daily transport maxRetries).attempts = maxRetries
      ∧ (fetch_alpha_vantage_daily transport maxRetries).outcome = .exhausted)
    ∧ (∀ (transport : ℕ → TransportReply) (maxR : ℕ) (b : RawBody) (m : List Char),
      transport 1 = .reply 200 b → b.note = false → b.information = false →
      b.error_message = some m →
      (fetch_alpha_vantage_data transport (maxR + 1)).attempts = 1
      ∧ (fetch_alpha_vantage_data transport (maxR + 1)).outcome = .upstreamError m
      ∧ (fetch_alpha_vantage_daily transport (maxR + 1)).attempts = 1
      ∧ (fetch_alpha_vantage_daily transport (maxR + 1)).outcome = .upstreamError m) := by
  constructor
  · intro transport maxRetries h
    exact ⟨(infoFetchLoop_exhausted_of_500 transport h maxRetries 1).1,
      (infoFetchLoop_exhausted_of_500 transport h maxRetries 1).2,
      (sharesFetchLoop_exhausted_of_500 transport h maxRetries 1).1,
      (sharesFetchLoop_exhausted_of_500 transport h maxRetries 1).2⟩
  · intro transport maxR b m htr hn hi he
    refine ⟨?_, ?_, ?_, ?_⟩ <;>
      simp [fetch_alpha_vantage_data, fetch_alpha_vantage_daily,
        infoFetchLoop, sharesFetchLoop, htr, hn, hi, he]

/-- Concrete instance of `retry_policy_exhausted_and_upstream`: an
always-500 transport exhausts 3 attempts on the generic fetcher; an
error-payload body makes the daily fetcher fail as `UpstreamError` after
1 attempt with a budget of 5. -/
theorem retry_policy_exhausted_and_upstream_witness :
    (fetch_alpha_vantage_data
        (fun _ => .reply 500 ⟨false, false, none, false⟩) 3).attempts = 3
    ∧ (fetch_alpha_vantage_daily
        (fun _ => .reply 200 ⟨false, false, some "x".toList, false⟩) 5).outcome
      = .upstreamError "x".toList :=
  ⟨(retry_policy_exhausted_and_upstream.1
      (fun _ => .reply 500 ⟨false, false, none, false⟩) 3
      (fun _ => ⟨⟨false, false, none, false⟩, rfl⟩)).1,
    (retry_policy_exhausted_and_upstream.2
      (fun _ => .reply 200 ⟨false, false, some "x".toList, false⟩) 4
      ⟨false, false, some "x".toList, false⟩ "x".toList rfl rfl rfl rfl).2.2.2⟩

theorem sharesFetchLoop_success_marker (transport : ℕ → TransportReply) :
    ∀ (r a : ℕ) (b : RawBody),
      (sharesFetchLoop transport a r).outcome = .success b →
      b.time_series_daily = true := by
  intro r
  induction r with
  | zero => intro a b h; exact absurd h (by simp [sharesFetchLoop])
  | succ r ih =>
    intro a b h
    rcases htr : transport a with ⟨status, body⟩ | _
    · simp only [sharesFetchLoop, htr] at h
      by_cases h200 : status ≠ 200
      · rw [if_pos h200] at h
        exact ih (a + 1) b h
      · rw [if_neg h200] at h
        by_cases hthr : (body.note || body.information) = true
        · rw [if_pos hthr] at h
          exact ih (a + 1) b h
        · rw [if_neg hthr] at h
          rcases herr : body.error_message with _ | m
          · rw [herr] at h
            by_cases hts : body.time_series_daily = true
            · rw [if_pos hts] at h
              cases h
              exact hts
            · rw [if_neg hts] at h
              exact ih (a + 1) b h
          · rw [herr] at h
            cases h
    · simp only [sharesFetchLoop, htr] at h
      exact ih (a + 1) b h

/-- Claim C5 (amended): in `fetch_alpha_vantage_daily`
(`fetch_a_shares.py`), a decoded 200 body without throttle or
error-message keys is returned only when it carries the
`"Time Series (Daily)"` success marker, and a well-formed body of
unexpected shape causes a `min(60, attempt*2)` sleep and another attempt;
`fetch_alpha_vantage_data` (`fetch_a_share_info.py`), in contrast,
performs no success-marker check and returns any such body immediately. -/
theorem success_marker_policy :
    (∀ (transport : ℕ → TransportReply) (a r : ℕ) (b : RawBody),
      (sharesFetchLoop transport a r).outcome = .success b →
      b.time_series_daily = true)
    ∧ (∀ (transport : ℕ → TransportReply) (a r : ℕ) (b : RawBody),
      transport a = .reply 200 b → b.note = false → b.information = false →
      b.error_message = none → b.time_series_daily = false →
      sharesFetchLoop transport a (r + 1)
        = ⟨(sharesFetchLoop transport (a + 1) r).attempts + 1,
           min 60 (a * 2) :: (sharesFetchLoop transport (a + 1) r).sleeps,
           (sharesFetchLoop transport (a + 1) r).outcome⟩)
    ∧ (∀ (transport : ℕ → TransportReply) (a r : ℕ) (b : RawBody),
      transport a = .reply 200 b → b.note = false → b.information = false →
      b.error_message = none →
      infoFetchLoop transport a (r + 1) = ⟨1, [], .success b⟩) := by
  refine ⟨fun transport a r => sharesFetchLoop_success_marker transport r a, ?_, ?_⟩
  · intro transport a r b htr hn hi he hts
    simp [sharesFetchLoop, htr, hn, hi, he, hts]
  · intro transport a r b htr hn hi he
    simp [infoFetchLoop, htr, hn, hi, he]

/-- Concrete instance of `success_marker_policy`: a marker-carrying body
returned by the daily fetcher does carry the marker, and a marker-less
plain body at attempt 1 yields one `min(60, 2)`-second sleep and a second
attempt. -/
theorem success_marker_policy_witness :
    (⟨false, false, none, true⟩ : RawBody).time_series_daily = true
    ∧ sharesFetchLoop (fun _ => .reply 200 ⟨false, false, none, false⟩) 1 5
      = ⟨(sharesFetchLoop (fun _ => .reply 200 ⟨false, false, none, false⟩) 2 4).attempts + 1,
         min 60 (1 * 2)
           :: (sharesFetchLoop (fun _ => .reply 200 ⟨false, false, none, false⟩) 2 4).sleeps,
         (sharesFetchLoop (fun _ => .reply 200 ⟨false, false, none, false⟩) 2 4).outcome⟩ :=
  ⟨success_marker_policy.1 (fun _ => .reply 200 ⟨false, false, none, true⟩) 1 1
      ⟨false, false, none, true⟩ rfl,
    success_marker_policy.2.1 (fun _ => .reply 200 ⟨false, false, none, false⟩) 1 4
      ⟨false, false, none, false⟩ rfl rfl rfl rfl rfl⟩

/-- Counterexample to claim C5 as stated: `fetch_alpha_vantage_data`
(`fetch_a_share_info.py`, one of the claim's two cited fetchers) returns a
decoded 200 body that has no throttle marker, no error-message key and no
endpoint success marker immediately on attempt 1, with no soft-failure
sleep. -/
theorem info_fetch_returns_markerless_body :
    fetch_alpha_vantage_data (fun _ => .reply 200 ⟨false, false, none, false⟩) 3
      = ⟨1, [], .success ⟨false, false, none, false⟩⟩
    ∧ (⟨false, false, none, false⟩ : RawBody).time_series_daily = false :=
  ⟨rfl, rfl⟩

/-- Claim C6 (amended): on a non-200 status or a network error at attempt
`a`, `fetch_alpha_vantage_data` (`fetch_a_share_info.py`) sleeps exactly
`min(30, a*2)` seconds before the next attempt, while
`fetch_alpha_vantage_daily` (`fetch_a_shares.py`) sleeps exactly
`min(60, a*2)` seconds; the two amounts coincide for every attempt number
`a ≤ 15`, in particular throughout the scripts' retry budgets (3 and 5). -/
theorem backoff_sleep_policy :
    (∀ (transport : ℕ → TransportReply) (a r status : ℕ) (b : RawBody),
      transport a = .reply status b → status ≠ 200 →
      infoFetchLoop transport a (r + 1)
        = ⟨(infoFetchLoop transport (a + 1) r).attempts + 1,
           min 30 (a * 2) :: (infoFetchLoop transport (a + 1) r).sleeps,
           (infoFetchLoop transport (a + 1) r).outcome⟩)
    ∧ (∀ (transport : ℕ → TransportReply) (a r : ℕ),
      transport a = .netError →
      infoFetchLoop transport a (r + 1)
        = ⟨(infoFetchLoop transport (a + 1) r).attempts + 1,
           min 30 (a * 2) :: (infoFetchLoop transport (a + 1) r).sleeps,
           (infoFetchLoop transport (a + 1) r).outcome⟩)
    ∧ (∀ (transport : ℕ → TransportReply) (a r status : ℕ) (b : RawBody),
      transport a = .reply status b → status ≠ 200 →
      sharesFetchLoop transport a (r + 1)
        = ⟨(sharesFetchLoop transport (a + 1) r).attempts + 1,
           min 60 (a * 2) :: (sharesFetchLoop transport (a + 1) r).sleeps,
           (sharesFetchLoop transport (a + 1) r).outcome⟩)
    ∧ (∀ (transport : ℕ → TransportReply) (a r : ℕ),
      transport a = .netError →
      sharesFetchLoop transport a (r + 1)
        = ⟨(sharesFetchLoop transport (a + 1) r).attempts + 1,
           min 60 (a * 2) :: (sharesFetchLoop transport (a + 1) r).sleeps,
           (sharesFetchLoop transport (a + 1) r).outcome⟩)
    ∧ (∀ a : ℕ, a ≤ 15 → min 60 (a * 2) = min 30 (a * 2)) := by
  refine ⟨?_, ?_, ?_, ?_, ?_⟩
  · intro transport a r status b htr hs
    simp [infoFetchLoop, htr, hs]
  · intro transport a r htr
    simp [infoFetchLoop, htr]
  · intro transport a r status b htr hs
    simp [sharesFetchLoop, htr, hs]
  · intro transport a r htr
    simp [sharesFetchLoop, htr]
  · intro a ha
    omega

/-- Concrete instance of `backoff_sleep_policy`: attempt 1 of the generic
fetcher against a 500-returning transport sleeps `min(30, 2)` seconds, and
`min(60, 10) = min(30, 10)` at attempt 5. -/
theorem backoff_sleep_policy_witness :
    infoFetchLoop (fun _ => .reply 500 ⟨false, false, none, false⟩) 1 3
      = ⟨(infoFetchLoop (fun _ => .reply 500 ⟨false, false, none, false⟩) 2 2).attempts + 1,
         min 30 (1 * 2)
           :: (infoFetchLoop (fun _ => .reply 500 ⟨false, false, none, false⟩) 2 2).sleeps,
         (infoFetchLoop (fun _ => .reply 500 ⟨false, false, none, false⟩) 2 2).outcome⟩
    ∧ min 60 (5 * 2) = min 30 (5 * 2) :=
  ⟨backoff_sleep_policy.1 (fun _ => .reply 500 ⟨false, false, none, false⟩) 1 2 500
      ⟨false, false, none, false⟩ rfl (by decide),
    backoff_sleep_policy.2.2.2.2 5 (by decide)⟩

/-- Counterexample to claim C6 as stated: with a retry budget of 16,
attempt 16 of `fetch_alpha_vantage_daily` against an always-500 transport
sleeps `min(60, 32) = 32` seconds, not the claimed `min(30, 32) = 30`. -/
theorem shares_backoff_not_min30 :
    (fetch_alpha_vantage_daily
        (fun _ => .reply 500 ⟨false, false, none, false⟩) 16).sleeps.getLast?
      = some (min 60 (16 * 2))
    ∧ min 60 (16 * 2) ≠ min 30 (16 * 2) := by
  constructor
  · decide
  · decide

/-! ### Aggregator (`fetch_stock_comprehensive_info`,
`fetch_a_share_info.py` lines 292-331)

```python
result = {"symbol": symbol}
try:
    quote_data = fetch_quote_endpoint(...)
    result.update(parse_quote_data(quote_data, symbol))
except Exception as e:
    print(...)
... (same for overview, news, daily) ...
return result
```

Each endpoint's fetch-and-parse is embedded as an oracle producing either
a parsed partial record or the exception the `try` block catches. -/

/-- A parsed scalar value in a record. -/
inductive JVal where
  | str (v : List Char)
  | rat (v : ℚ)
  | int (v : ℤ)
deriving DecidableEq

/-- A `PartialRecord`: one endpoint adapter's parsed output (a Python
dict from field name to scalar). -/
abbrev PartialRecord : Type := List (String × JVal)

/-- The exceptions an endpoint fetch-and-parse can raise: the
`RuntimeError` after exhausted retries, the `ValueError` on an explicit
upstream error payload, or anything else (e.g. a parse failure). -/
inductive EndpointErr where
  | exhaustedRetries
  | upstreamErr (msg : List Char)
  | otherErr (msg : List Char)
deriving DecidableEq

/-- Python `base.update(upd)`: entries of `upd` overwrite same-key entries
of `base`, other entries of `base` survive.  (Positions of surviving keys
are irrelevant to every lookup.) -/
def dict_update (base upd : PartialRecord) : PartialRecord :=
  base.filter (fun p => (assocLookup upd p.1).isNone) ++ upd

/-- One `try: ... result.update(parse(...)) except: pass-after-logging`
block: a failed endpoint leaves `result` unchanged. -/
def try_update (result : PartialRecord)
    (fetched : Except EndpointErr PartialRecord) : PartialRecord :=
  match fetched with
  | .ok pr => dict_update result pr
  | .error _ => result

/-- `fetch_stock_comprehensive_info(symbol, ...)`: start from
`{"symbol": symbol}` and overlay the four endpoint results in order,
each under its own try/except. -/
def fetch_stock_comprehensive_info (symbol : List Char)
    (quote overview news daily : Except EndpointErr PartialRecord) :
    PartialRecord :=
  try_update (try_update (try_update
    (try_update [("symbol", JVal.str symbol)] quote) overview) news) daily

theorem assocLookup_dict_update (b u : PartialRecord) (k : String) :
    assocLookup (dict_update b u) k
      = match assocLookup u k with
        | some v => some v
        | none => assocLookup b k := by
  induction b with
  | nil =>
    simp only [dict_update, List.filter_nil, List.nil_append]
    rcases assocLookup u k with _ | v <;> rfl
  | cons p t ih =>
    rcases p with ⟨k₁, v₁⟩
    simp only [dict_update, List.filter_cons]
    rcases h₁ : assocLookup u k₁ with _ | w
    · simp only [h₁, Option.isNone_none, if_pos, List.cons_append]
      by_cases hk : k = k₁
      · subst hk
        rw [assocLookup_cons_self, h₁, assocLookup_cons_self]
      · rw [assocLookup_cons_ne _ _ hk]
        rw [show (List.filter (fun p => (assocLookup u p.1).isNone) t ++ u)
            = dict_update t u from rfl, ih]
        rw [assocLookup_cons_ne _ _ hk]
    · simp only [h₁, Option.isNone_some, Bool.false_eq_true, if_neg,
        not_false_iff]
      rw [show (List.filter (fun p => (assocLookup u p.1).isNone) t ++ u)
          = dict_update t u from rfl, ih]
      by_cases hk : k = k₁
      · subst hk
        rw [h₁]
      · rw [assocLookup_cons_ne _ _ hk]

theorem assocLookup_try_update_isSome (r : PartialRecord)
    (fetched : Except EndpointErr PartialRecord) (k : String)
    (h : (assocLookup r k).isSome = true) :
    (assocLookup (try_update r fetched) k).isSome = true := by
  rcases fetched with _ | pr
  · exact h
  · rw [try_update, assocLookup_dict_update]
    rcases assocLookup pr k with _ | v
    · exact h
    · rfl

theorem dict_update_nil (b : PartialRecord) : dict_update b [] = b := by
  simp [dict_update, assocLookup]

/-- Claim C3: the aggregator's result always exposes a `"symbol"` field;
a failing adapter is equivalent to one returning an empty partial record
(so the other three still run and contribute); and when all four fail the
result is exactly `{"symbol": symbol}`. -/
theorem aggregator_isolation (symbol : List Char)
    (quote overview news daily : Except EndpointErr PartialRecord) :
    (assocLookup
        (fetch_stock_comprehensive_info symbol quote overview news daily)
        "symbol").isSome = true
    ∧ (∀ e, fetch_stock_comprehensive_info symbol (.error e) overview news daily
        = fetch_stock_comprehensive_info symbol (.ok []) overview news daily)
    ∧ (∀ e, fetch_stock_comprehensive_info symbol quote (.error e) news daily
        = fetch_stock_comprehensive_info symbol quote (.ok []) news daily)
    ∧ (∀ e, fetch_stock_comprehensive_info symbol quote overview (.error e) daily
        = fetch_stock_comprehensive_info symbol quote overview (.ok []) daily)
    ∧ (∀ e, fetch_stock_comprehensive_info symbol quote overview news (.error e)
        = fetch_stock_comprehensive_info symbol quote overview news (.ok []))
    ∧ (∀ e₁ e₂ e₃ e₄, fetch_stock_comprehensive_info symbol
        (.error e₁) (.error e₂) (.error e₃) (.error e₄)
        = [("symbol", JVal.str symbol)]) := by
  refine ⟨?_, ?_, ?_, ?_, ?_, fun e₁ e₂ e₃ e₄ => rfl⟩
  · apply assocLookup_try_update_isSome
    apply assocLookup_try_update_isSome
    apply assocLookup_try_update_isSome
    apply assocLookup_try_update_isSome
    rw [assocLookup_cons_self]
    rfl
  · intro e
    unfold fetch_stock_comprehensive_info
    rw [show try_update [("symbol", JVal.str symbol)] (.error e)
        = [("symbol", JVal.str symbol)] from rfl,
      show try_update [("symbol", JVal.str symbol)] (.ok [])
        = dict_update [("symbol", JVal.str symbol)] [] from rfl,
      dict_update_nil]
  · intro e
    unfold fetch_stock_comprehensive_info
    rw [show ∀ r, try_update r (Except.error e) = r from fun _ => rfl,
      show ∀ r, try_update r (Except.ok []) = dict_update r [] from fun _ => rfl,
      dict_update_nil]
  · intro e
    unfold fetch_stock_comprehensive_info
    rw [show ∀ r, try_update r (Except.error e) = r from fun _ => rfl,
      show ∀ r, try_update r (Except.ok []) = dict_update r [] from fun _ => rfl,
      dict_update_nil]
  · intro e
    unfold fetch_stock_comprehensive_info
    rw [show ∀ r, try_update r (Except.error e) = r from fun _ => rfl,
      show ∀ r, try_update r (Except.ok []) = dict_update r [] from fun _ => rfl,
      dict_update_nil]

/-! ### Batch drivers (`main` loops)

`fetch_a_share_info.py` (lines 394-399):

```python
for raw_symbol in args.symbols:
    symbol = normalize_a_share_symbol(raw_symbol)
    result = fetch_stock_comprehensive_info(symbol, api_key, rate_limiter, session)
    all_results.append(result)
```

`fetch_a_shares.py` (lines 236-256): the loop calls
`fetch_alpha_vantage_daily(...)` with NO surrounding try/except, builds a
dataframe, skips it when empty, and appends it.  An exception raised by
the fetch propagates out of `main`. -/

/-- The comprehensive-info batch driver, over per-endpoint
fetch-and-parse oracles keyed by the normalized symbol. -/
def info_batch_driver
    (quoteF overviewF newsF dailyF : List Char → Except EndpointErr PartialRecord)
    (symbols : List (List Char)) : List PartialRecord :=
  symbols.map (fun raw =>
    let sym := normalize_a_share_symbol raw
    fetch_stock_comprehensive_info sym (quoteF sym) (overviewF sym) (newsF sym)
      (dailyF sym))

/-- Abstraction of `parse_daily_to_dataframe`'s output for one symbol:
the driver only tests `df.empty` before collecting it. -/
structure DailyFrame where
  sym : List Char
  empty : Bool
deriving DecidableEq

/-- The daily-series batch driver of `fetch_a_shares.py`: per symbol,
fetch (no try/except: an error propagates immediately, abandoning the
remaining symbols), skip empty frames, collect the rest in input order. -/
def shares_batch_driver
    (fetchF : List Char → Except EndpointErr DailyFrame) :
    List (List Char) → Except EndpointErr (List DailyFrame)
  | [] => .ok []
  | raw :: rest =>
    match fetchF (normalize_a_share_symbol raw) with
    | .error e => .error e
    | .ok df =>
      match shares_batch_driver fetchF rest with
      | .error e => .error e
      | .ok frames => .ok (if df.empty then frames else df :: frames)

/-- Claim C2 (amended): the comprehensive-info driver
(`fetch_a_share_info.py`) yields exactly one result per input identifier,
in input order, and every result carries the `"symbol"` field — no
endpoint failure escapes it; the daily driver (`fetch_a_shares.py`),
however, propagates an endpoint failure (`ExhaustedRetries` /
`UpstreamError`) out of the batch loop, abandoning all remaining
identifiers. -/
theorem batch_driver_containment
    (quoteF overviewF newsF dailyF : List Char → Except EndpointErr PartialRecord)
    (symbols : List (List Char)) :
    (info_batch_driver quoteF overviewF newsF dailyF symbols).length
      = symbols.length
    ∧ (∀ i : ℕ, (info_batch_driver quoteF overviewF newsF dailyF symbols)[i]?
        = symbols[i]?.map (fun raw =>
            fetch_stock_comprehensive_info (normalize_a_share_symbol raw)
              (quoteF (normalize_a_share_symbol raw))
              (overviewF (normalize_a_share_symbol raw))
              (newsF (normalize_a_share_symbol raw))
              (dailyF (normalize_a_share_symbol raw))))
    ∧ (∀ r ∈ info_batch_driver quoteF overviewF newsF dailyF symbols,
        (assocLookup r "symbol").isSome = true)
    ∧ (∀ (fetchF : List Char → Except EndpointErr DailyFrame)
        (raw : List Char) (rest : List (List Char)) (e : EndpointErr),
        fetchF (normalize_a_share_symbol raw) = .error e →
        shares_batch_driver fetchF (raw :: rest) = .error e) := by
  refine ⟨List.length_map _ _, ?_, ?_, ?_⟩
  · intro i
    rw [info_batch_driver, List.getElem?_map]
  · intro r hr
    rw [info_batch_driver, List.mem_map] at hr
    obtain ⟨raw, _, hraw⟩ := hr
    rw [← hraw]
    apply assocLookup_try_update_isSome
    apply assocLookup_try_update_isSome
    apply assocLookup_try_update_isSome
    apply assocLookup_try_update_isSome
    rw [assocLookup_cons_self]
    rfl
  · intro fetchF raw rest e he
    rw [shares_batch_driver, he]

/-- Concrete instance of `batch_driver_containment`: an always-exhausted
fetch oracle makes the daily driver abort on the single identifier
`"000001"`. -/
theorem batch_driver_containment_witness :
    shares_batch_driver (fun _ => .error .exhaustedRetries) ["000001".toList]
      = .error .exhaustedRetries :=
  (batch_driver_containment (fun _ => .ok []) (fun _ => .ok []) (fun _ => .ok [])
      (fun _ => .ok []) []).2.2.2
    (fun _ => .error .exhaustedRetries) "000001".toList [] .exhaustedRetries rfl

/-- Counterexample to claim C2 as stated: in `fetch_a_shares.py`'s batch
driver (one of the claim's two cited drivers), an `ExhaustedRetries`
failure on the first of two identifiers aborts the whole batch — the
second identifier is never processed and the error crosses the driver
boundary instead of a result list of length 2 being returned. -/
theorem shares_driver_aborts_batch :
    shares_batch_driver (fun _ => .error .exhaustedRetries)
        ["600519".toList, "000001".toList]
      = .error .exhaustedRetries := rfl

/-! ### Credential selection in `main` (both scripts)

```python
api_key = "DBW1NM92621232126K" #args.api_key or os.getenv("ALPHAVANTAGE_API_KEY")
if not api_key:
    print("请提供 Alpha Vantage API Key（--api-key 或环境变量 ALPHAVANTAGE_API_KEY）", file=sys.stderr)
    sys.exit(2)
```

The assignment is a string literal; the `--api-key` argument and the
`ALPHAVANTAGE_API_KEY` environment variable appear only in the
commented-out tail of the line. -/

/-- The key `main` actually uses, as a function of the CLI argument and
the environment variable (both ignored by the code). -/
def main_select_api_key (_cli_key _env_key : Option (List Char)) : List Char :=
  "DBW1NM92621232126K".toList

/-- The credential step of `main`: `sys.exit(2)` when the selected key is
falsy, otherwise proceed with the key. -/
def main_credential_step (cli_key env_key : Option (List Char)) :
    Except ℕ (List Char) :=
  if main_select_api_key cli_key env_key = [] then .error 2
  else .ok (main_select_api_key cli_key env_key)

/-- Claim C10: whatever `--api-key` and `ALPHAVANTAGE_API_KEY` hold, both
scripts fetch with the hardcoded key `"DBW1NM92621232126K"`, and the
missing-credential `sys.exit(2)` branch is unreachable. -/
theorem api_key_hardcoded (cli_key env_key : Option (List Char)) :
    main_select_api_key cli_key env_key = "DBW1NM92621232126K".toList
    ∧ main_credential_step cli_key env_key = .ok "DBW1NM92621232126K".toList := by
  exact ⟨rfl, by simp [main_credential_step, main_select_api_key]⟩

/-! ### Daily-series parser (`parse_daily_data_for_week`,
`fetch_a_share_info.py` lines 254-289)

```python
time_series = daily_data.get("Time Series (Daily)", {})
if not time_series:
    return {}
dates = sorted(time_series.keys(), reverse=True)[:7]
...
if len(week_data) >= 2:
    first_close = week_data[-1]["close"]
    last_close = week_data[0]["close"]
    week_change = last_close - first_close
    week_change_percent = (week_change / first_close * 100) if first_close > 0 else 0
else:
    week_change = 0
    week_change_percent = 0
```

Date keys are `"YYYY-MM-DD"` strings whose lexicographic order is the
chronological order; they are embedded as naturals.  Python's
`sorted(keys, reverse=True)` is embedded as an ascending sort followed by
`reverse` (identical on the distinct keys of a dict).  Each day's entry
holds the already-coerced `float(...)`/`int(...)` values of
`"1. open"`, `"4. close"` and `"5. volume"` (absent keys default to 0 at
that coercion). -/

/-- One day's entry of the `"Time Series (Daily)"` mapping. -/
structure DailyValues where
  open_price : ℚ
  close_price : ℚ
  volume : ℤ
deriving DecidableEq

/-- One element of the parser's `week_data` list. -/
structure WeekRow where
  date : ℕ
  close : ℚ
  volume : ℤ
  change : ℚ
deriving DecidableEq

/-- The parser's returned dict (`{}` becomes `none`). -/
structure WeekSummary where
  symbol : List Char
  week_change : ℚ
  week_change_percent : ℚ
  week_data : List WeekRow
deriving DecidableEq

/-- `parse_daily_data_for_week(daily_data, symbol)`. -/
def parse_daily_data_for_week (symbol : List Char)
    (time_series : List (ℕ × DailyValues)) : Option WeekSummary :=
  if time_series = [] then none
  else
    let dates := ((List.insertionSort (fun a b => a ≤ b)
        (time_series.map Prod.fst)).reverse).take 7
    if dates = [] then none
    else
      let week_data := dates.map (fun d =>
        let day := (assocLookup time_series d).getD ⟨0, 0, 0⟩
        WeekRow.mk d day.close_price day.volume
          (day.close_price - day.open_price))
      let wc :=
        if 2 ≤ week_data.length then
          let first_close := (week_data.getLast?.getD ⟨0, 0, 0, 0⟩).close
          let last_close := (week_data.head?.getD ⟨0, 0, 0, 0⟩).close
          let week_change := last_close - first_close
          (week_change,
            if 0 < first_close then week_change / first_close * 100 else 0)
        else ((0 : ℚ), (0 : ℚ))
      some ⟨symbol, pyRound 2 wc.1, pyRound 2 wc.2, week_data⟩

theorem pyRound_zero (n : ℕ) : pyRound n 0 = 0 := by
  norm_num [pyRound, roundHalfEven]

/-- Claim C8 (amended): for a seven-day series `D1 < ... < D7` (`D7` most
recent) with closes `C_i`, the parser reports
`week_change = round(C7 - C1, 2)` (unconditionally — also when `C1 = 0`)
and `week_change_percent = round((C7 - C1)/C1 * 100, 2)` when `C1 > 0`
and `0` otherwise (also for negative `C1`); a single-day series yields
both change values `0`; an empty series yields the empty mapping. -/
theorem daily_week_change_policy (symbol : List Char) :
    (∀ (d1 d2 d3 d4 d5 d6 d7 : ℕ) (e1 e2 e3 e4 e5 e6 e7 : DailyValues),
      d1 < d2 → d2 < d3 → d3 < d4 → d4 < d5 → d5 < d6 → d6 < d7 →
      parse_daily_data_for_week symbol
        [(d1, e1), (d2, e2), (d3, e3), (d4, e4), (d5, e5), (d6, e6), (d7, e7)]
        = some ⟨symbol,
            pyRound 2 (e7.close_price - e1.close_price),
            pyRound 2 (if 0 < e1.close_price
              then (e7.close_price - e1.close_price) / e1.close_price * 100
              else 0),
            [⟨d7, e7.close_price, e7.volume, e7.close_price - e7.open_price⟩,
             ⟨d6, e6.close_price, e6.volume, e6.close_price - e6.open_price⟩,
             ⟨d5, e5.close_price, e5.volume, e5.close_price - e5.open_price⟩,
             ⟨d4, e4.close_price, e4.volume, e4.close_price - e4.open_price⟩,
             ⟨d3, e3.close_price, e3.volume, e3.close_price - e3.open_price⟩,
             ⟨d2, e2.close_price, e2.volume, e2.close_price - e2.open_price⟩,
             ⟨d1, e1.close_price, e1.volume, e1.close_price - e1.open_price⟩]⟩)
    ∧ (∀ (d : ℕ) (e : DailyValues),
      parse_daily_data_for_week symbol [(d, e)]
        = some ⟨symbol, 0, 0,
            [⟨d, e.close_price, e.volume, e.close_price - e.open_price⟩]⟩)
    ∧ parse_daily_data_for_week symbol [] = none := by
  refine ⟨?_, ?_, rfl⟩
  · intro d1 d2 d3 d4 d5 d6 d7 e1 e2 e3 e4 e5 e6 e7 h12 h23 h34 h45 h56 h67
    have hsort : List.Sorted (fun a b => a ≤ b) [d1, d2, d3, d4, d5, d6, d7] := by
      simp [List.sorted_cons, List.forall_mem_cons]
      omega
    have hins := hsort.insertionSort_eq
    have n21 : d2 ≠ d1 := by omega
    have n31 : d3 ≠ d1 := by omega
    have n32 : d3 ≠ d2 := by omega
    have n41 : d4 ≠ d1 := by omega
    have n42 : d4 ≠ d2 := by omega
    have n43 : d4 ≠ d3 := by omega
    have n51 : d5 ≠ d1 := by omega
    have n52 : d5 ≠ d2 := by omega
    have n53 : d5 ≠ d3 := by omega
    have n54 : d5 ≠ d4 := by omega
    have n61 : d6 ≠ d1 := by omega
    have n62 : d6 ≠ d2 := by omega
    have n63 : d6 ≠ d3 := by omega
    have n64 : d6 ≠ d4 := by omega
    have n65 : d6 ≠ d5 := by omega
    have n71 : d7 ≠ d1 := by omega
    have n72 : d7 ≠ d2 := by omega
    have n73 : d7 ≠ d3 := by omega
    have n74 : d7 ≠ d4 := by omega
    have n75 : d7 ≠ d5 := by omega
    have n76 : d7 ≠ d6 := by omega
    simp only [parse_daily_data_for_week, List.map_cons, List.map_nil]
    rw [hins]
    simp [assocLookup, n21, n31, n32, n41, n42, n43, n51, n52, n53, n54,
      n61, n62, n63, n64, n65, n71, n72, n73, n74, n75, n76]
  · intro d e
    simp [parse_daily_data_for_week, assocLookup, pyRound_zero]

/-- Concrete instance of `daily_week_change_policy`: a seven-day series on
dates 1..7 with oldest close 2 and most recent close 4. -/
theorem daily_week_change_policy_witness :
    parse_daily_data_for_week "W".toList
      [(1, ⟨1, 2, 10⟩), (2, ⟨0, 0, 0⟩), (3, ⟨0, 0, 0⟩), (4, ⟨0, 0, 0⟩),
       (5, ⟨0, 0, 0⟩), (6, ⟨0, 0, 0⟩), (7, ⟨3, 4, 70⟩)]
      = some ⟨"W".toList, pyRound 2 ((4 : ℚ) - 2),
          pyRound 2 (if (0 : ℚ) < 2 then ((4 : ℚ) - 2) / 2 * 100 else 0),
          [⟨7, 4, 70, (4 : ℚ) - 3⟩, ⟨6, 0, 0, (0 : ℚ) - 0⟩,
           ⟨5, 0, 0, (0 : ℚ) - 0⟩, ⟨4, 0, 0, (0 : ℚ) - 0⟩,
           ⟨3, 0, 0, (0 : ℚ) - 0⟩, ⟨2, 0, 0, (0 : ℚ) - 0⟩,
           ⟨1, 2, 10, (2 : ℚ) - 1⟩]⟩ :=
  (daily_week_change_policy "W".toList).1 1 2 3 4 5 6 7
    ⟨1, 2, 10⟩ ⟨0, 0, 0⟩ ⟨0, 0, 0⟩ ⟨0, 0, 0⟩ ⟨0, 0, 0⟩ ⟨0, 0, 0⟩ ⟨3, 4, 70⟩
    (by decide) (by decide) (by decide) (by decide) (by decide) (by decide)

/-- Counterexample to claim C8 as stated: a two-day series whose oldest
close `C1` is `0` and whose latest close is `5` yields
`week_change = 5 ≠ 0`, where the claim demands both change values be `0`
when `C1 = 0` (the code zeroes only the percentage). -/
theorem daily_week_change_zero_oldest_close :
    (parse_daily_data_for_week "X".toList
        [(1, ⟨0, 0, 0⟩), (2, ⟨5, 5, 0⟩)]).map (fun w => w.week_change)
      = some 5
    ∧ ((assocLookup [((1 : ℕ), (⟨0, 0, 0⟩ : DailyValues)), (2, ⟨5, 5, 0⟩)]
        1).getD ⟨0, 0, 0⟩).close_price = 0
    ∧ (5 : ℚ) ≠ 0 := by
  refine ⟨?_, by norm_num [assocLookup], by norm_num⟩
  norm_num [parse_daily_data_for_week, assocLookup, pyRound, roundHalfEven,
    List.insertionSort, List.orderedInsert]
  exact ⟨_, ⟨by simp, by simp, rfl⟩, rfl⟩

/-! ### News-sentiment parser (`parse_news_sentiment`,
`fetch_a_share_info.py` lines 206-251)

```python
for item in feed[:10]:  # first 10 items only
    news_date = item.get("time_published", "")
    if news_date:
        try:
            news_datetime = datetime.strptime(news_date, "%Y%m%dT%H%M%S")
            if news_datetime.date() >= (datetime.now() - timedelta(days=7)).date():
                recent_news.append({...})
                total_sentiment += sentiment_score
                if ... == "positive": positive_count += 1
                elif ... == "negative": negative_count += 1
        except:
            continue
```

`strptime` and calendar dates are abstracted: an item's
`"time_published"` field is embedded as either absent/empty, malformed
(so that `strptime` raises and the `except: continue` skips the item), or
a valid timestamp carrying its calendar day as an integer;
`(now - 7 days).date() <= parsed.date()` becomes `today - 7 ≤ day`. -/

/-- The `"time_published"` field of one feed item, as the parse attempt
sees it. -/
inductive TsParse where
  | missing
  | malformed
  | valid (day : ℤ)
deriving DecidableEq

/-- One item of the news feed (fields pre-read with their `.get`
defaults). -/
structure NewsItem where
  time_published : TsParse
  title : List Char
  summary : List Char
  overall_sentiment_label : List Char
  overall_sentiment_score : ℚ
deriving DecidableEq

/-- One entry of the parser's `recent_news` list. -/
structure NewsRec where
  title : List Char
  summary : List Char
  sentiment : List Char
  date : ℤ
deriving DecidableEq

/-- The parser's returned dict (`{}` becomes `none`). -/
structure NewsSummary where
  symbol : List Char
  recent_news_count : ℕ
  avg_sentiment_score : ℚ
  positive_news_count : ℕ
  negative_news_count : ℕ
  recent_news : List NewsRec
deriving DecidableEq

/-- The record appended to `recent_news` for a kept item whose parsed
day is `d` (the summary is truncated to 100 characters plus an ellipsis
when non-empty). -/
def news_record (item : NewsItem) (d : ℤ) : NewsRec :=
  ⟨item.title,
   if item.summary = [] then [] else item.summary.take 100 ++ "...".toList,
   item.overall_sentiment_label, d⟩

/-- The accumulation loop over the inspected feed items: returns
`(recent_news, total_sentiment, positive_count, negative_count)`. -/
def news_loop (today : ℤ) : List NewsItem → List NewsRec × ℚ × ℕ × ℕ
  | [] => ([], 0, 0, 0)
  | item :: rest =>
    let acc := news_loop today rest
    match item.time_published with
    | .missing => acc
    | .malformed => acc
    | .valid d =>
      if today - 7 ≤ d then
        (news_record item d :: acc.1,
         acc.2.1 + item.overall_sentiment_score,
         if item.overall_sentiment_label = "positive".toList
           then acc.2.2.1 + 1 else acc.2.2.1,
         if item.overall_sentiment_label = "negative".toList
           then acc.2.2.2 + 1 else acc.2.2.2)
      else acc

/-- `parse_news_sentiment(news_data, symbol)` at current day `today`;
`none` models the `{}` returned when the feed is absent or empty. -/
def parse_news_sentiment (today : ℤ) (symbol : List Char)
    (news_data : Option (List NewsItem)) : Option NewsSummary :=
  match news_data with
  | none => none
  | some feed =>
    if feed = [] then none
    else
      let acc := news_loop today (feed.take 10)
      some ⟨symbol, acc.1.length,
        if acc.1 = [] then 0 else pyRound 3 (acc.2.1 / (acc.1.length : ℚ)),
        acc.2.2.1, acc.2.2.2, acc.1⟩

/-- An item is kept iff its timestamp parsed and its day is within the
last 7 days of `today`. -/
def is_recent_news (today : ℤ) (item : NewsItem) : Bool :=
  match item.time_published with
  | .valid d => decide (today - 7 ≤ d)
  | _ => false

/-- The parsed day of a kept item. -/
def news_day (item : NewsItem) : ℤ :=
  match item.time_published with
  | .valid d => d
  | _ => 0

theorem news_loop_eq (today : ℤ) (l : List NewsItem) :
    news_loop today l =
      ((l.filter (is_recent_news today)).map (fun i => news_record i (news_day i)),
       ((l.filter (is_recent_news today)).map
           (fun i => i.overall_sentiment_score)).sum,
       (l.filter (is_recent_news today)).countP
         (fun i => decide (i.overall_sentiment_label = "positive".toList)),
       (l.filter (is_recent_news today)).countP
         (fun i => decide (i.overall_sentiment_label = "negative".toList))) := by
  induction l with
  | nil => rfl
  | cons item rest ih =>
    rcases hts : item.time_published with _ | _ | d
    · simp [news_loop, hts, List.filter_cons, is_recent_news, ih]
    · simp [news_loop, hts, List.filter_cons, is_recent_news, ih]
    · by_cases hd : today - 7 ≤ d
      · have hnd : news_day item = d := by simp [news_day, hts]
        have hrec : is_recent_news today item = true := by
          simp [is_recent_news, hts, hd]
        simp only [news_loop, hts, ih]
        rw [if_pos hd]
        simp only [List.filter_cons, hrec, if_true, List.map_cons,
          List.sum_cons, List.countP_cons, hnd, Prod.mk.injEq]
        refine ⟨trivial, by ring, ?_, ?_⟩
        · by_cases hp : item.overall_sentiment_label
              = ['p', 'o', 's', 'i', 't', 'i', 'v', 'e'] <;>
            simp [hp]
        · by_cases hn : item.overall_sentiment_label
              = ['n', 'e', 'g', 'a', 't', 'i', 'v', 'e'] <;>
            simp [hn]
      · simp [news_loop, hts, List.filter_cons, is_recent_news, hd, ih]

/-- Claim C9 (amended): for a 12-item feed, when exactly 3 of the items
the parser inspects — the first 10 of the feed — have well-formed recent
timestamps, 2 labeled positive and 1 negative, the result counts 3 recent
/ 2 positive / 1 negative items and averages the 3 kept scores rounded to
3 decimals; a non-empty feed always parses (`isSome`); a malformed
timestamp is skipped, not fatal. -/
theorem news_sentiment_policy (today : ℤ) (symbol : List Char) :
    (∀ feed : List NewsItem,
      feed.length = 12 →
      ((feed.take 10).filter (is_recent_news today)).length = 3 →
      ((feed.take 10).filter (is_recent_news today)).countP
          (fun i => decide (i.overall_sentiment_label = "positive".toList)) = 2 →
      ((feed.take 10).filter (is_recent_news today)).countP
          (fun i => decide (i.overall_sentiment_label = "negative".toList)) = 1 →
      parse_news_sentiment today symbol (some feed)
        = some ⟨symbol, 3,
            pyRound 3
              ((((feed.take 10).filter (is_recent_news today)).map
                  (fun i => i.overall_sentiment_score)).sum / 3),
            2, 1,
            ((feed.take 10).filter (is_recent_news today)).map
              (fun i => news_record i (news_day i))⟩)
    ∧ (∀ feed : List NewsItem, feed ≠ [] →
        (parse_news_sentiment today symbol (some feed)).isSome = true)
    ∧ (∀ item : NewsItem, item.time_published = .malformed →
        is_recent_news today item = false
        ∧ ∀ rest, news_loop today (item :: rest) = news_loop today rest) := by
  refine ⟨?_, ?_, ?_⟩
  · intro feed h12 h3 hp hn
    have hne : feed ≠ [] := by
      intro h
      rw [h] at h12
      simp at h12
    have hlen : (((feed.take 10).filter (is_recent_news today)).map
        (fun i => news_record i (news_day i))).length = 3 := by
      rw [List.length_map, h3]
    have hmapne : ((feed.take 10).filter (is_recent_news today)).map
        (fun i => news_record i (news_day i)) ≠ [] := by
      intro h
      rw [h] at hlen
      simp at hlen
    simp only [parse_news_sentiment, if_neg hne, news_loop_eq, hlen,
      if_neg hmapne, hp, hn]
    norm_num
  · intro feed hne
    simp [parse_news_sentiment, hne]
  · intro item h
    exact ⟨by simp [is_recent_news, h], fun rest => by simp [news_loop, h]⟩

/-- A stale feed item: valid timestamp far older than the 7-day window. -/
def oldNewsItem : NewsItem :=
  ⟨.valid 0, "t".toList, [], "neutral".toList, 0⟩

/-- A 12-item feed whose 3 recent items (2 positive, 1 negative) come
first, within the 10 items the parser inspects. -/
def recentFirstNewsFeed : List NewsItem :=
  [⟨.valid 100, "a".toList, [], "positive".toList, 0⟩,
   ⟨.valid 99, "b".toList, [], "positive".toList, 0⟩,
   ⟨.valid 100, "c".toList, [], "negative".toList, 0⟩,
   oldNewsItem, oldNewsItem, oldNewsItem, oldNewsItem, oldNewsItem,
   oldNewsItem, oldNewsItem, oldNewsItem, oldNewsItem]

/-- Concrete instance of `news_sentiment_policy` on
`recentFirstNewsFeed` at day 100. -/
theorem news_sentiment_policy_witness :
    parse_news_sentiment 100 "W".toList (some recentFirstNewsFeed)
      = some ⟨"W".toList, 3,
          pyRound 3
            ((((recentFirstNewsFeed.take 10).filter (is_recent_news 100)).map
                (fun i => i.overall_sentiment_score)).sum / 3),
          2, 1,
          ((recentFirstNewsFeed.take 10).filter (is_recent_news 100)).map
            (fun i => news_record i (news_day i))⟩ :=
  (news_sentiment_policy 100 "W".toList).1 recentFirstNewsFeed rfl
    (by decide) (by decide) (by decide)

/-- A 12-item feed whose 3 recent items (2 positive, 1 negative) sit at
positions 10-12, so only one of them is among the `feed[:10]` items the
parser inspects. -/
def lateNewsFeed : List NewsItem :=
  [oldNewsItem, oldNewsItem, oldNewsItem, oldNewsItem, oldNewsItem,
   oldNewsItem, oldNewsItem, oldNewsItem, oldNewsItem,
   ⟨.valid 100, "a".toList, [], "positive".toList, 0⟩,
   ⟨.valid 99, "b".toList, [], "positive".toList, 0⟩,
   ⟨.valid 100, "c".toList, [], "negative".toList, 0⟩]

/-- Counterexample to claim C9 as stated: `lateNewsFeed` has 12 items of
which exactly 3 are recent (2 positive, 1 negative) and 9 older, yet the
parser reports `recent_news_count = 1`, because it inspects only the
first 10 feed items. -/
theorem news_sentiment_late_items_miscounted :
    lateNewsFeed.length = 12
    ∧ (lateNewsFeed.filter (is_recent_news 100)).length = 3
    ∧ (lateNewsFeed.filter (is_recent_news 100)).countP
        (fun i => decide (i.overall_sentiment_label = "positive".toList)) = 2
    ∧ (lateNewsFeed.filter (is_recent_news 100)).countP
        (fun i => decide (i.overall_sentiment_label = "negative".toList)) = 1
    ∧ (parse_news_sentiment 100 "X".toList (some lateNewsFeed)).map
        (fun r => r.recent_news_count) = some 1
    ∧ (1 : ℕ) ≠ 3 := by
  refine ⟨rfl, by decide, by decide, by decide, ?_, by decide⟩
  decide
